import Mathlib

/-!
Verification of the Veritas Go client (`client.go`) against its
natural-language specification.

The development shallowly embeds the client's data model and operations:
pure Go functions become Lean functions; machine words are `Nat` with
explicit reductions modulo `2 ^ 32` / `2 ^ 64`; Go's streaming `hash.Hash`
interface is modelled as accumulation of the written bytes followed by a
digest of the accumulated stream; code paths that `panic` (failed type
assertions, `panic(err)`) are modelled with `Option` / a dedicated outcome
constructor.  JSON decoding (`encoding/json`, used by the code as a black
box) is modelled by passing the decoded JSON tree — or a decode failure —
as an explicit argument.
-/

namespace Veritas

/-! ## Bytes, UTF-8 and hex -/

/-- UTF-8 encoding of one character (RFC 3629).  Go strings are byte
sequences; `len(s)` and all hashing operate on the UTF-8 bytes. -/
def utf8Char (c : Char) : List Nat :=
  let n := c.toNat
  if n < 0x80 then [n]
  else if n < 0x800 then [0xC0 + n / 64, 0x80 + n % 64]
  else if n < 0x10000 then [0xE0 + n / 4096, 0x80 + n / 64 % 64, 0x80 + n % 64]
  else [0xF0 + n / 262144, 0x80 + n / 4096 % 64, 0x80 + n / 64 % 64, 0x80 + n % 64]

/-- The UTF-8 bytes of a string. -/
def utf8Bytes (s : String) : List Nat :=
  (s.data.map utf8Char).flatten

theorem utf8Bytes_append (s t : String) :
    utf8Bytes (s ++ t) = utf8Bytes s ++ utf8Bytes t := by
  simp [utf8Bytes, String.data_append]

theorem char_toNat_lt (c : Char) : c.toNat < 1114112 := by
  rcases c.valid with h | h
  · exact Nat.lt_trans h (by decide)
  · exact h.2

theorem utf8Char_lt (c : Char) : ∀ b ∈ utf8Char c, b < 256 := by
  have hn : c.toNat < 1114112 := char_toNat_lt c
  intro b hb
  simp only [utf8Char] at hb
  split at hb
  · simp at hb; omega
  · split at hb
    · simp at hb
      rcases hb with h | h <;> omega
    · split at hb
      · simp at hb
        rcases hb with h | h | h <;> omega
      · simp at hb
        rcases hb with h | h | h | h <;> omega

theorem utf8Bytes_lt (s : String) : ∀ b ∈ utf8Bytes s, b < 256 := by
  intro b hb
  simp only [utf8Bytes, List.mem_flatten, List.mem_map] at hb
  obtain ⟨l, ⟨c, _, rfl⟩, hbl⟩ := hb
  exact utf8Char_lt c b hbl

/-- One lowercase hex digit (as used by Go's `%x` verb). -/
def hexDigit (n : Nat) : Char :=
  if n < 10 then Char.ofNat (48 + n) else Char.ofNat (87 + n)

/-- Two lowercase hex digits of a byte. -/
def byteHex (b : Nat) : List Char :=
  [hexDigit (b / 16), hexDigit (b % 16)]

/-- Lowercase hex string of a byte sequence, Go's `fmt.Sprintf("%x", ...)`. -/
def bytesToHex (l : List Nat) : String :=
  ⟨(l.map byteHex).flatten⟩

/-! ## Word arithmetic helpers (`Nat` with explicit modulus) -/

def pow32 : Nat := 4294967296
def pow64 : Nat := 18446744073709551616

/-- Rotate a 32-bit word left by `n` (0 < n < 32 in all uses). -/
def rotl32 (x n : Nat) : Nat :=
  (x * 2 ^ n + x / 2 ^ (32 - n)) % pow32

/-- Rotate a 64-bit word right by `n` (0 < n < 64 in all uses). -/
def rotr64 (x n : Nat) : Nat :=
  (x / 2 ^ n + x * 2 ^ (64 - n)) % pow64

/-- Logical right shift of a 64-bit word. -/
def shr64 (x n : Nat) : Nat := x / 2 ^ n

/-- Split a list into consecutive blocks of `km1 + 1` elements
(fuel-based structural recursion so that the kernel can evaluate it;
one unit of fuel is consumed per block, and `l.length` units suffice). -/
def toBlocksAux (km1 : Nat) : Nat → List Nat → List (List Nat)
  | 0, _ => []
  | _, [] => []
  | fuel + 1, x :: xs => (x :: xs).take (km1 + 1) :: toBlocksAux km1 fuel (xs.drop km1)

def toBlocks (km1 : Nat) (l : List Nat) : List (List Nat) :=
  toBlocksAux km1 l.length l

/-- Big-endian bytes (length `k`) of a number. -/
def beBytes (k n : Nat) : List Nat :=
  (List.range k).map (fun i => n / 2 ^ (8 * (k - 1 - i)) % 256)

/-- Big-endian word value of a byte list. -/
def beWord (bytes : List Nat) : Nat :=
  bytes.foldl (fun a b => a * 256 + b % 256) 0

/-- The 16 `w`-byte big-endian words of one block. -/
def blockWords (w : Nat) (block : List Nat) : List Nat :=
  (toBlocks (w - 1) block).map beWord

/-- Merkle–Damgård padding: `0x80`, zeros, then the bit length as
`lenBytes` big-endian bytes, to a multiple of `blockSize`. -/
def padMsg (msg : List Nat) (blockSize lenBytes : Nat) : List Nat :=
  let padZeros := (blockSize - (msg.length + 1 + lenBytes) % blockSize) % blockSize
  msg ++ [0x80] ++ List.replicate padZeros 0 ++ beBytes lenBytes (8 * msg.length)

/-! ## SHA-1 (FIPS 180-4), the content fingerprint used by the signer -/

def sha1F (t b c d : Nat) : Nat :=
  if t < 20 then (b &&& c) ||| ((b ^^^ (pow32 - 1)) &&& d)
  else if t < 40 then b ^^^ c ^^^ d
  else if t < 60 then (b &&& c) ||| (b &&& d) ||| (c &&& d)
  else b ^^^ c ^^^ d

def sha1K (t : Nat) : Nat :=
  if t < 20 then 1518500249
  else if t < 40 then 1859775393
  else if t < 60 then 2400959708
  else 3395469782

/-- Extend the 16 message words by `n` further schedule words. -/
def extendSha1 (ws : List Nat) : Nat → List Nat
  | 0 => ws
  | n + 1 =>
    let prev := extendSha1 ws n
    let i := prev.length
    prev ++ [rotl32 ((prev.getD (i - 3) 0) ^^^ (prev.getD (i - 8) 0) ^^^
      (prev.getD (i - 14) 0) ^^^ (prev.getD (i - 16) 0)) 1]

def sha1Step (wt t : Nat) (s : Nat × Nat × Nat × Nat × Nat) :
    Nat × Nat × Nat × Nat × Nat :=
  let (a, b, c, d, e) := s
  ((rotl32 a 5 + sha1F t b c d + e + sha1K t + wt) % pow32, a, rotl32 b 30, c, d)

def sha1Block (h : Nat × Nat × Nat × Nat × Nat) (block : List Nat) :
    Nat × Nat × Nat × Nat × Nat :=
  let ws := extendSha1 (blockWords 4 block) 64
  let (a, b, c, d, e) :=
    (List.range 80).foldl (fun s t => sha1Step (ws.getD t 0) t s) h
  let (h0, h1, h2, h3, h4) := h
  ((h0 + a) % pow32, (h1 + b) % pow32, (h2 + c) % pow32,
   (h3 + d) % pow32, (h4 + e) % pow32)

def sha1Init : Nat × Nat × Nat × Nat × Nat :=
  (1732584193, 4023233417, 2562383102, 271733878, 3285377520)

/-- The 20 SHA-1 digest bytes of a message. -/
def sha1Bytes (msg : List Nat) : List Nat :=
  let (a, b, c, d, e) := (toBlocks 63 (padMsg msg 64 8)).foldl sha1Block sha1Init
  beBytes 4 a ++ beBytes 4 b ++ beBytes 4 c ++ beBytes 4 d ++ beBytes 4 e

/-- Lowercase-hex SHA-1 digest, Go's `fmt.Sprintf("%x", sha1.Sum(...))`. -/
def sha1Hex (msg : List Nat) : String := bytesToHex (sha1Bytes msg)

/-! ## SHA-512 (FIPS 180-4), the outer signature digest -/

def ch64 (x y z : Nat) : Nat := (x &&& y) ^^^ ((x ^^^ (pow64 - 1)) &&& z)
def maj64 (x y z : Nat) : Nat := (x &&& y) ^^^ (x &&& z) ^^^ (y &&& z)
def bigSigma0 (x : Nat) : Nat := rotr64 x 28 ^^^ rotr64 x 34 ^^^ rotr64 x 39
def bigSigma1 (x : Nat) : Nat := rotr64 x 14 ^^^ rotr64 x 18 ^^^ rotr64 x 41
def smallSigma0 (x : Nat) : Nat := rotr64 x 1 ^^^ rotr64 x 8 ^^^ shr64 x 7
def smallSigma1 (x : Nat) : Nat := rotr64 x 19 ^^^ rotr64 x 61 ^^^ shr64 x 6

/-- SHA-512 round constants. -/
def K512 : List Nat := [
  4794697086780616226, 8158064640168781261, 13096744586834688815, 16840607885511220156,
  4131703408338449720, 6480981068601479193, 10538285296894168987, 12329834152419229976,
  15566598209576043074, 1334009975649890238, 2608012711638119052, 6128411473006802146,
  8268148722764581231, 9286055187155687089, 11230858885718282805, 13951009754708518548,
  16472876342353939154, 17275323862435702243, 1135362057144423861, 2597628984639134821,
  3308224258029322869, 5365058923640841347, 6679025012923562964, 8573033837759648693,
  10970295158949994411, 12119686244451234320, 12683024718118986047, 13788192230050041572,
  14330467153632333762, 15395433587784984357, 489312712824947311, 1452737877330783856,
  2861767655752347644, 3322285676063803686, 5560940570517711597, 5996557281743188959,
  7280758554555802590, 8532644243296465576, 9350256976987008742, 10552545826968843579,
  11727347734174303076, 12113106623233404929, 14000437183269869457, 14369950271660146224,
  15101387698204529176, 15463397548674623760, 17586052441742319658, 1182934255886127544,
  1847814050463011016, 2177327727835720531, 2830643537854262169, 3796741975233480872,
  4115178125766777443, 5681478168544905931, 6601373596472566643, 7507060721942968483,
  8399075790359081724, 8693463985226723168, 9568029438360202098, 10144078919501101548,
  10430055236837252648, 11840083180663258601, 13761210420658862357, 14299343276471374635,
  14566680578165727644, 15097957966210449927, 16922976911328602910, 17689382322260857208,
  500013540394364858, 748580250866718886, 1242879168328830382, 1977374033974150939,
  2944078676154940804, 3659926193048069267, 4368137639120453308, 4836135668995329356,
  5532061633213252278, 6448918945643986474, 6902733635092675308, 7801388544844847127]

/-- Extend the 16 message words by `n` further SHA-512 schedule words. -/
def extendSha512 (ws : List Nat) : Nat → List Nat
  | 0 => ws
  | n + 1 =>
    let prev := extendSha512 ws n
    let i := prev.length
    prev ++ [(smallSigma1 (prev.getD (i - 2) 0) + prev.getD (i - 7) 0 +
      smallSigma0 (prev.getD (i - 15) 0) + prev.getD (i - 16) 0) % pow64]

abbrev Sha512State := Nat × Nat × Nat × Nat × Nat × Nat × Nat × Nat

def sha512Step (wt kt : Nat) (s : Sha512State) : Sha512State :=
  let (a, b, c, d, e, f, g, h) := s
  let t1 := (h + bigSigma1 e + ch64 e f g + kt + wt) % pow64
  let t2 := (bigSigma0 a + maj64 a b c) % pow64
  ((t1 + t2) % pow64, a, b, c, (d + t1) % pow64, e, f, g)

def sha512Block (h : Sha512State) (block : List Nat) : Sha512State :=
  let ws := extendSha512 (blockWords 8 block) 64
  let (a, b, c, d, e, f, g, h8) :=
    (List.range 80).foldl (fun s t => sha512Step (ws.getD t 0) (K512.getD t 0) s) h
  let (i0, i1, i2, i3, i4, i5, i6, i7) := h
  ((i0 + a) % pow64, (i1 + b) % pow64, (i2 + c) % pow64, (i3 + d) % pow64,
   (i4 + e) % pow64, (i5 + f) % pow64, (i6 + g) % pow64, (i7 + h8) % pow64)

def sha512Init : Sha512State :=
  (7640891576956012808, 13503953896175478587, 4354685564936845355, 11912009170470909681,
   5840696475078001361, 11170449401992604703, 2270897969802886507, 6620516959819538809)

/-- The 64 SHA-512 digest bytes of a message. -/
def sha512Bytes (msg : List Nat) : List Nat :=
  let (a, b, c, d, e, f, g, h) :=
    (toBlocks 127 (padMsg msg 128 16)).foldl sha512Block sha512Init
  beBytes 8 a ++ beBytes 8 b ++ beBytes 8 c ++ beBytes 8 d ++
  beBytes 8 e ++ beBytes 8 f ++ beBytes 8 g ++ beBytes 8 h

/-- Lowercase-hex SHA-512 digest, Go's `fmt.Sprintf("%x", hasher.Sum(nil))`. -/
def sha512Hex (msg : List Nat) : String := bytesToHex (sha512Bytes msg)

/-! ## Go's streaming `hash.Hash`: writes accumulate bytes -/

/-- A streaming hasher: `Write` appends bytes; `Sum` digests everything
written, so the digest is the digest of the concatenation of the writes. -/
structure GoHash where
  acc : List Nat

/-- `io.WriteString(hasher, s)` appends the UTF-8 bytes of `s`. -/
def GoHash.writeStr (h : GoHash) (s : String) : GoHash :=
  ⟨h.acc ++ utf8Bytes s⟩

set_option maxRecDepth 100000 in
set_option maxHeartbeats 4000000 in
/-- Sanity check of the SHA-1 embedding against the FIPS 180-4 test vector. -/
theorem sha1Hex_abc : sha1Hex (utf8Bytes "abc") = "a9993e364706816aba3e25717850c26c9cd0d89d" := by
  decide

set_option maxRecDepth 100000 in
set_option maxHeartbeats 4000000 in
/-- Sanity check of the SHA-512 embedding against the FIPS 180-4 test vector. -/
theorem sha512Hex_abc : sha512Hex (utf8Bytes "abc") =
    "ddaf35a193617abacc417349ae20413112e6fa4e89a97ea20a9eeee64b55d39a2192992a274fc1a836ba3c23a3feebbd454d4423643ce80e2a9ac94fa54ca49f" := by
  decide

/-! ## Constants of `client.go` -/

def API_VERSION : String := "v1"
def API_ENDPOINT : String := "http://api.flxveritas.com"
def REGION_ANY : String := "any"

def LOG_TRACE : Int := 3
def LOG_DEBUG : Int := 2
def LOG_WARN : Int := 1
def LOG_ERROR : Int := 0

def RESPONSETYPE_FETCH_SINGLE : Int := 1
def RESPONSETYPE_FETCH_MULTI : Int := 2
def RESPONSETYPE_MUTATION : Int := 3

def VALTYPE_DATA : Int := 1
def VALTYPE_COUNT : Int := 2

/-! ## The client object and its setters -/

/-- Go struct `VeritasClient`; unset Go string fields default to `""`. -/
structure VeritasClient where
  customerId : Int := 0
  applicationId : Int := 0
  secureToken : String := ""
  version : String := ""
  database : String := ""
  endpoint : String := ""
  region : String := ""
  logLevel : Int := 0
deriving DecidableEq

def Select (v : VeritasClient) (db : String) : VeritasClient :=
  { v with database := db }

def SetVersion (v : VeritasClient) (version : String) : VeritasClient :=
  { v with version := version }

def SetRegion (v : VeritasClient) (region : String) : VeritasClient :=
  { v with region := region }

def SetEndpoint (v : VeritasClient) (endpoint : String) : VeritasClient :=
  { v with endpoint := endpoint }

/-- `SetLogLevel` returns whether the update was applied, together with
the (possibly unchanged) client. -/
def SetLogLevel (v : VeritasClient) (l : Int) : Bool × VeritasClient :=
  if l < LOG_ERROR ∨ l > LOG_TRACE then (false, v)
  else (true, { v with logLevel := l })

def NewClient (customerId applicationId : Int) (secureToken : String) : VeritasClient :=
  let obj : VeritasClient :=
    { customerId := customerId, applicationId := applicationId,
      secureToken := secureToken, logLevel := LOG_WARN }
  let obj := SetVersion obj API_VERSION
  let obj := SetEndpoint obj API_ENDPOINT
  let obj := SetRegion obj REGION_ANY
  obj

/-! ## Requests -/

structure RequestOpts where
  encryption : Bool
  async : Bool
  redundancy : Int
deriving DecidableEq

/-- Go struct `Request`. -/
structure Request where
  client : VeritasClient
  endpoint : String := ""
  method : String := ""
  body : String := ""
  opts : RequestOpts
  valType : Int := 0
  responseType : Int := 0
  mutations : Int := 0
deriving DecidableEq

/-- Request options defaults (`newRequestOpts`). -/
def newRequestOpts : RequestOpts :=
  { encryption := true, async := false, redundancy := 1 }

def newRequest (v : VeritasClient) (method endpoint : String)
    (valType respType : Int) : Request :=
  { client := v, endpoint := endpoint, method := method.toUpper,
    opts := newRequestOpts, valType := valType, responseType := respType }

/-- `getUrl`: the canonical path `/{version}/{endpoint}`. -/
def getUrl (r : Request) : String :=
  "/" ++ r.client.version ++ "/" ++ r.endpoint

/-! ## The signer (`signRequest`) -/

/-- `signRequest`, written exactly as the Go streaming-hash sequence:
write the method, the url, the token, the decimal byte length of the body,
and the lowercase-hex SHA-1 of the body into a SHA-512 hasher, then
return the lowercase-hex SHA-512 sum. -/
def signRequest (r : Request) : String :=
  let hasher := GoHash.writeStr ⟨[]⟩ r.method
  let hasher := hasher.writeStr (getUrl r)
  let hasher := hasher.writeStr r.client.secureToken
  let hasher := hasher.writeStr (toString (utf8Bytes r.body).length)
  let sha1H := GoHash.writeStr ⟨[]⟩ r.body
  let sha1Body := sha1Hex sha1H.acc
  let hasher := hasher.writeStr sha1Body
  sha512Hex hasher.acc

/-! ## URI encoding (`encodeUri`)

Go's `url.QueryEscape` keeps ASCII alphanumerics and `-`, `_`, `.`, `~`
unescaped, turns a space into `+`, and escapes every other byte as `%XX`
with uppercase hex.  `encodeUri` then undoes the escaping of `,` and `:`
with `strings.Replace(..., -1)`. -/

/-- Bytes `url.QueryEscape` leaves as-is (`shouldEscape` returns false). -/
def isUnreservedByte (b : Nat) : Bool :=
  (48 ≤ b && b ≤ 57) || (65 ≤ b && b ≤ 90) || (97 ≤ b && b ≤ 122) ||
  b == 45 || b == 95 || b == 46 || b == 126

/-- One uppercase hex digit (as used by `url.QueryEscape`). -/
def hexUpper (n : Nat) : Char :=
  if n < 10 then Char.ofNat (48 + n) else Char.ofNat (55 + n)

/-- `url.QueryEscape` acting on one byte. -/
def escByte (b : Nat) : List Char :=
  if isUnreservedByte b then [Char.ofNat b]
  else if b == 32 then ['+']
  else ['%', hexUpper (b / 16), hexUpper (b % 16)]

/-- `url.QueryEscape` over the bytes of a string. -/
def queryEscape (l : List Nat) : List Char :=
  (l.map escByte).flatten

/-- `s == pat ++ _`: does `s` start with `pat`? -/
def leadsWith : List Char → List Char → Bool
  | [], _ => true
  | _ :: _, [] => false
  | p :: ps, c :: cs => p == c && leadsWith ps cs

/-- `strings.Replace(s, pat, rep, -1)` for nonempty `pat`: scan left to
right, replacing each (non-overlapping) occurrence.  Fuel-based so that
the kernel can evaluate it; one unit of fuel per emitted position, so
`s.length` units suffice. -/
def replaceAllAux (pat rep : List Char) : Nat → List Char → List Char
  | 0, l => l
  | _, [] => []
  | fuel + 1, c :: cs =>
    if leadsWith pat (c :: cs) then
      rep ++ replaceAllAux pat rep fuel ((c :: cs).drop pat.length)
    else
      c :: replaceAllAux pat rep fuel cs

def replaceAllChars (pat rep l : List Char) : List Char :=
  replaceAllAux pat rep l.length l

/-- `encodeUri` from `client.go`: query-escape, then put back literal
`,` and `:`. -/
def encodeUri (str : String) : String :=
  let s1 := queryEscape (utf8Bytes str)
  let s2 := replaceAllChars ['%', '2', 'C'] [','] s1
  let s3 := replaceAllChars ['%', '3', 'A'] [':'] s2
  ⟨s3⟩

/-- Per-byte description of `encodeUri` following the spec's words:
`,` and `:` stay literal, every other byte is query-escaped as usual. -/
def uriSpecByte (b : Nat) : List Char :=
  if b == 44 then [',']
  else if b == 58 then [':']
  else escByte b

/-- The spec-side description of `encodeUri`. -/
def encodeUriSpec (str : String) : String :=
  ⟨((utf8Bytes str).map uriSpecByte).flatten⟩

/-- Shape of the pieces a query-escaped string is made of: one non-`%`
character, or a `%XY` escape whose digits are not `%`.  A `%ab`-style
pattern can then only match at the start of an escape piece. -/
def goodChunk (ch : List Char) : Bool :=
  match ch with
  | [c] => c != '%'
  | [c0, c1, c2] => c0 == '%' && c1 != '%' && c2 != '%'
  | _ => false

theorem replaceAux_chunks (p1 p2 rc : Char) (hp1 : p1 ≠ '%') (hp2 : p2 ≠ '%')
    (chunks : List (List Char)) :
    ∀ fuel : Nat, (∀ ch ∈ chunks, goodChunk ch = true) →
      chunks.flatten.length ≤ fuel →
      replaceAllAux ['%', p1, p2] [rc] fuel chunks.flatten =
        (chunks.map (fun ch => if ch = ['%', p1, p2] then [rc] else ch)).flatten := by
  induction chunks with
  | nil =>
    intro fuel _ _
    cases fuel <;> simp [replaceAllAux]
  | cons ch rest ih =>
    intro fuel hgood hfuel
    have hch : goodChunk ch = true := hgood ch (by simp)
    have hrest : ∀ c ∈ rest, goodChunk c = true := fun c hc => hgood c (by simp [hc])
    match ch, hch with
    | [], hc => simp [goodChunk] at hc
    | [c], hc =>
      have hcp : c ≠ '%' := by simpa [goodChunk] using hc
      simp only [List.flatten_cons, List.singleton_append, List.length_cons] at hfuel ⊢
      rcases fuel with _ | f
      · omega
      simp only [replaceAllAux]
      rw [if_neg (by simp [leadsWith, beq_iff_eq]; intro h; exact absurd h.symm hcp)]
      rw [ih f hrest (by omega)]
      simp only [List.map_cons, List.flatten_cons]
      rw [if_neg (by simp)]
      simp
    | [c0, c1], hc => simp [goodChunk] at hc
    | c0 :: c1 :: c2 :: c3 :: t, hc => simp [goodChunk] at hc
    | [c0, x, y], hc =>
      obtain ⟨rfl, hx, hy⟩ : c0 = '%' ∧ x ≠ '%' ∧ y ≠ '%' := by
        have h := hc; simp [goodChunk, beq_iff_eq] at h
        exact ⟨h.1.1, h.1.2, h.2⟩
      simp only [List.flatten_cons, List.cons_append, List.nil_append,
        List.length_cons] at hfuel ⊢
      rcases fuel with _ | f1
      · omega
      by_cases hxy : x = p1 ∧ y = p2
      · obtain ⟨rfl, rfl⟩ := hxy
        simp only [replaceAllAux]
        rw [if_pos (by simp [leadsWith])]
        simp only [List.length_cons, List.length_nil, List.drop_succ_cons,
          List.drop_zero]
        rw [ih f1 hrest (by omega)]
        simp only [List.map_cons, List.flatten_cons]
        simp
      · simp only [replaceAllAux]
        rw [if_neg (by
          simp [leadsWith, beq_iff_eq]
          intro h1 h2
          exact hxy ⟨h1.symm, h2.symm⟩)]
        rcases f1 with _ | f2
        · omega
        simp only [replaceAllAux]
        rw [if_neg (by simp [leadsWith, beq_iff_eq]; intro h; exact absurd h.symm hx)]
        rcases f2 with _ | f3
        · omega
        simp only [replaceAllAux]
        rw [if_neg (by simp [leadsWith, beq_iff_eq]; intro h; exact absurd h.symm hy)]
        rw [ih f3 hrest (by omega)]
        simp only [List.map_cons, List.flatten_cons]
        rw [if_neg (by
          intro h
          injection h with _ h2
          injection h2 with hh1 h3
          injection h3 with hh2 _
          exact hxy ⟨hh1, hh2⟩)]
        simp

set_option maxRecDepth 10000 in
theorem escByte_goodChunk : ∀ b : Nat, b < 256 → goodChunk (escByte b) = true := by
  decide

set_option maxRecDepth 10000 in
theorem step1_goodChunk : ∀ b : Nat, b < 256 →
    goodChunk (if escByte b = ['%', '2', 'C'] then [','] else escByte b) = true := by
  decide

set_option maxRecDepth 10000 in
set_option maxHeartbeats 1000000 in
theorem steps_compose : ∀ b : Nat, b < 256 →
    (if (if escByte b = ['%', '2', 'C'] then [','] else escByte b) = ['%', '3', 'A']
      then [':'] else (if escByte b = ['%', '2', 'C'] then [','] else escByte b)) =
      uriSpecByte b := by
  decide

theorem encodeUri_chars (s : String) : encodeUri s = encodeUriSpec s := by
  have hb : ∀ b ∈ utf8Bytes s, b < 256 := utf8Bytes_lt s
  have h1 := replaceAux_chunks '2' 'C' ',' (by decide) (by decide)
    ((utf8Bytes s).map escByte)
    (((utf8Bytes s).map escByte).flatten.length)
    (by
      intro ch hch
      simp only [List.mem_map] at hch
      obtain ⟨b, hbmem, rfl⟩ := hch
      exact escByte_goodChunk b (hb b hbmem))
    le_rfl
  have h2 := replaceAux_chunks '3' 'A' ':' (by decide) (by decide)
    (((utf8Bytes s).map escByte).map
      (fun ch => if ch = ['%', '2', 'C'] then [','] else ch))
    ((((utf8Bytes s).map escByte).map
      (fun ch => if ch = ['%', '2', 'C'] then [','] else ch)).flatten.length)
    (by
      intro ch hch
      simp only [List.map_map, List.mem_map, Function.comp] at hch
      obtain ⟨b, hbmem, rfl⟩ := hch
      exact step1_goodChunk b (hb b hbmem))
    le_rfl
  show String.mk (replaceAllChars ['%', '3', 'A'] [':']
      (replaceAllChars ['%', '2', 'C'] [','] (queryEscape (utf8Bytes s)))) = _
  unfold replaceAllChars queryEscape
  rw [h1, h2]
  unfold encodeUriSpec
  apply congrArg
  rw [List.map_map, List.map_map]
  apply congrArg
  apply List.map_congr_left
  intro b hbmem
  have := steps_compose b (hb b hbmem)
  simpa [Function.comp] using this

/-! ## Request payloads and the bulk builders -/

/-- Go struct `PayloadObjectsKeyValues` (values map; `α` is `string` for
data, `int64` for counters). -/
structure PayloadObjectsKeyValues (α : Type) where
  Key : String := ""
  DbOverride : String := ""
  TableOverride : String := ""
  Values : List (String × α) := []

/-- Go struct `PayloadObjectsKeys` (subkey list). -/
structure PayloadObjectsKeys where
  Key : String := ""
  DbOverride : String := ""
  TableOverride : String := ""
  Values : List String := []

/-- Go struct `RequestPayload`. -/
structure RequestPayload (ω : Type) where
  DefaultDb : String := ""
  DefaultTable : String := ""
  Objects : List ω := []

/-- `PutMulti`: builds the envelope from the key map (one object and one
counted mutation per top-level key), marshals it (`json.Marshal` is the
external serializer, passed as `marshal`), and attaches the body and the
expected mutation count to a `PUT data` mutation request.  Go map
iteration yields each distinct key exactly once; the map is embedded as
an association list with no duplicate keys. -/
def PutMulti (v : VeritasClient) (table : String)
    (keymap : List (String × List (String × String)))
    (marshal : RequestPayload (PayloadObjectsKeyValues String) → String) : Request :=
  let outer : RequestPayload (PayloadObjectsKeyValues String) :=
    { DefaultDb := v.database, DefaultTable := table }
  let folded := keymap.foldl
    (fun (acc : RequestPayload (PayloadObjectsKeyValues String) × Int) kv =>
      ({ acc.1 with Objects := acc.1.Objects ++ [{ Key := kv.1, Values := kv.2 }] },
        acc.2 + 1))
    (outer, 0)
  let r := newRequest v "PUT" "data" VALTYPE_DATA RESPONSETYPE_MUTATION
  { r with body := marshal folded.1, mutations := folded.2 }

/-- `DeleteMulti`: as `PutMulti`, with subkey lists and `DELETE data`. -/
def DeleteMulti (v : VeritasClient) (table : String)
    (keymap : List (String × List String))
    (marshal : RequestPayload PayloadObjectsKeys → String) : Request :=
  let outer : RequestPayload PayloadObjectsKeys :=
    { DefaultDb := v.database, DefaultTable := table }
  let folded := keymap.foldl
    (fun (acc : RequestPayload PayloadObjectsKeys × Int) kv =>
      ({ acc.1 with Objects := acc.1.Objects ++ [{ Key := kv.1, Values := kv.2 }] },
        acc.2 + 1))
    (outer, 0)
  let r := newRequest v "DELETE" "data" VALTYPE_DATA RESPONSETYPE_MUTATION
  { r with body := marshal folded.1, mutations := folded.2 }

/-- `PutMultiCount`: as `PutMulti`, with `int64` values and `PUT count`. -/
def PutMultiCount (v : VeritasClient) (table : String)
    (keymap : List (String × List (String × Int)))
    (marshal : RequestPayload (PayloadObjectsKeyValues Int) → String) : Request :=
  let outer : RequestPayload (PayloadObjectsKeyValues Int) :=
    { DefaultDb := v.database, DefaultTable := table }
  let folded := keymap.foldl
    (fun (acc : RequestPayload (PayloadObjectsKeyValues Int) × Int) kv =>
      ({ acc.1 with Objects := acc.1.Objects ++ [{ Key := kv.1, Values := kv.2 }] },
        acc.2 + 1))
    (outer, 0)
  let r := newRequest v "PUT" "count" VALTYPE_COUNT RESPONSETYPE_MUTATION
  { r with body := marshal folded.1, mutations := folded.2 }

/-- `DeleteMultiCount`: as `DeleteMulti`, with `DELETE count`. -/
def DeleteMultiCount (v : VeritasClient) (table : String)
    (keymap : List (String × List String))
    (marshal : RequestPayload PayloadObjectsKeys → String) : Request :=
  let outer : RequestPayload PayloadObjectsKeys :=
    { DefaultDb := v.database, DefaultTable := table }
  let folded := keymap.foldl
    (fun (acc : RequestPayload PayloadObjectsKeys × Int) kv =>
      ({ acc.1 with Objects := acc.1.Objects ++ [{ Key := kv.1, Values := kv.2 }] },
        acc.2 + 1))
    (outer, 0)
  let r := newRequest v "DELETE" "count" VALTYPE_COUNT RESPONSETYPE_MUTATION
  { r with body := marshal folded.1, mutations := folded.2 }

/-! ## Decoded JSON and the response decoder -/

/-- Decoded JSON trees, as produced by `json.Unmarshal` into
`interface{}` values.  JSON numbers decode to Go `float64`; every number
appearing in the claims is integral, so numbers are carried as `Int`. -/
inductive Json where
  | null
  | bool (b : Bool)
  | num (n : Int)
  | str (s : String)
  | arr (xs : List Json)
  | obj (fields : List (String × Json))

/-- Lookup in a decoded JSON object (Go maps have unique keys). -/
def jLookup (fields : List (String × Json)) (k : String) : Option Json :=
  match fields with
  | [] => none
  | (k1, v) :: rest => if k1 = k then some v else jLookup rest k

/-- Go struct `Response`.  `Error` is true when a decode error was
recorded; `Data` holds the decoded top-level JSON object. -/
structure Response where
  Success : Bool := false
  ResponseType : Int := 0
  RawBody : String := ""
  Request : Request
  Error : Bool := false
  StrValue : String := ""
  IntValue : Int := 0
  MutationCount : Int := 0
  Data : Option Json := none

/-- `fmt.Sprintf("%s", data["status"]) == "OK"`: only the JSON string
`"OK"` prints as `OK` (absent fields print as the nil error verb, and
non-strings print with `%!s(...)` or Go container syntax, none of which
equals `OK`). -/
def statusOK (tl : List (String × Json)) : Bool :=
  match jLookup tl "status" with
  | some (Json.str s) => s = "OK"
  | _ => false

/-- `fmt.Sprintf("%s", v)` on a decoded scalar JSON value.  Strings print
as themselves; other scalars print with Go's `%!s` error verb (numbers
are integral in this model).  Containers print with Go container syntax;
their exact text is irrelevant to every claim, and is represented by the
bracketed marker forms below. -/
def goSprintfS (j : Json) : String :=
  match j with
  | Json.null => "%!s(<nil>)"
  | Json.bool true => "%!s(bool=true)"
  | Json.bool false => "%!s(bool=false)"
  | Json.num n => "%!s(float64=" ++ toString n ++ ")"
  | Json.str s => s
  | Json.arr _ => "[...]"
  | Json.obj _ => "map[...]"

/-- The first value in an object that parses through
`strconv.ParseFloat(fmt.Sprintf("%f", v), 64)`: exactly the JSON
numbers do (`%f` of anything else yields an unparsable `%!f(...)`). -/
def firstNumVal : List (String × Json) → Option Int
  | [] => none
  | (_, Json.num n) :: _ => some n
  | _ :: rest => firstNumVal rest

/-- FETCH_SINGLE/DATA extraction: each entry of `data` is
type-asserted to an object (`none` models the panic on a non-object);
a non-empty entry overwrites `StrValue` with its first value. -/
def fetchSingleStr (dm : List (String × Json)) (init : String) : Option String :=
  dm.foldl
    (fun acc kv =>
      match acc with
      | none => none
      | some cur =>
        match kv.2 with
        | Json.obj [] => some cur
        | Json.obj ((_, v) :: _) => some (goSprintfS v)
        | _ => none)
    (some init)

/-- FETCH_SINGLE/COUNT extraction: as `fetchSingleStr`, but the first
numerically-parsable value of each entry overwrites `IntValue`. -/
def fetchSingleCount (dm : List (String × Json)) (init : Int) : Option Int :=
  dm.foldl
    (fun acc kv =>
      match acc with
      | none => none
      | some cur =>
        match kv.2 with
        | Json.obj kvm =>
          match firstNumVal kvm with
          | some n => some n
          | none => some cur
        | _ => none)
    (some init)

/-- MUTATION: the observed count read from `data.mutations`; only a JSON
number parses, anything else (absent, null, or non-numeric) leaves the
`-1` sentinel. -/
def mutationObserved (dm : List (String × Json)) : Int :=
  match jLookup dm "mutations" with
  | some (Json.num n) => n
  | _ => -1

/-- MUTATION: the mutation-count cross-check — a provisionally
successful response whose observed count differs from the expected one
is downgraded to failure. -/
def mutationStage (expected : Int) (s : Bool) (obs : Int) : Bool :=
  if s ∧ obs ≠ expected then false else s

/-- A field counts as present for the `!= nil` guards exactly when it is
there and not JSON null (null decodes to Go `nil`). -/
def presentField (dm : List (String × Json)) (k : String) : Option Json :=
  match jLookup dm k with
  | none => none
  | some Json.null => none
  | some j => some j

/-- MUTATION: the `acknowledged`/`executed` override, applied after the
count check; `none` models the `.(bool)` type-assertion panic on a
present non-boolean field. -/
def mutationOverride (dm : List (String × Json)) (s : Bool) : Option Bool :=
  match presentField dm "acknowledged" with
  | some (Json.bool b) => some b
  | some _ => none
  | none =>
    match presentField dm "executed" with
    | some (Json.bool b) => some b
    | some _ => none
    | none => some s

/-- `Response.parse`.  `decoded` stands for the result of
`json.Unmarshal(rawBody, &map[string]interface{})` (the black-box JSON
decoder): the decoded top-level object, or a decode error (which also
covers valid JSON whose top level is not an object).  The result is
`none` when parsing panics (a failed type assertion). -/
def parse (req : Request) (rawBody : String)
    (decoded : Except Unit (List (String × Json))) : Option Response :=
  let r0 : Response := { Request := req, RawBody := rawBody }
  if rawBody.length < 1 then some r0
  else
    match decoded with
    | Except.error _ => some { r0 with Success := false, Error := true }
    | Except.ok tl =>
      let s0 := statusOK tl
      let r1 : Response := { r0 with Success := s0, Data := some (Json.obj tl) }
      match jLookup tl "data" with
      | none => some r1
      | some Json.null => some r1
      | some (Json.obj dm) =>
        if req.responseType = RESPONSETYPE_FETCH_SINGLE then
          if req.valType = VALTYPE_DATA then
            match fetchSingleStr dm r1.StrValue with
            | none => none
            | some sv => some { r1 with StrValue := sv }
          else if req.valType = VALTYPE_COUNT then
            match fetchSingleCount dm r1.IntValue with
            | none => none
            | some iv => some { r1 with IntValue := iv }
          else some r1
        else if req.responseType = RESPONSETYPE_MUTATION then
          let obs := mutationObserved dm
          let s1 := mutationStage req.mutations s0 obs
          match mutationOverride dm s1 with
          | none => none
          | some s2 => some { r1 with MutationCount := obs, Success := s2 }
        else some r1
      | some _ => none

/-- `NewResponse` attaches the raw body and request and parses. -/
def NewResponse (req : Request) (bodyStr : String)
    (decoded : Except Unit (List (String × Json))) : Option Response :=
  parse req bodyStr decoded

/-! ## Typed accessors (`log.Fatal` on mismatch is modelled as `none`) -/

/-- `DataValue`: fatal unless the response is FETCH_SINGLE/DATA. -/
def DataValue (r : Response) : Option String :=
  if r.Request.responseType ≠ RESPONSETYPE_FETCH_SINGLE ∨
      r.Request.valType ≠ VALTYPE_DATA then none
  else some r.StrValue

/-- The bulk map built by `DataMapValues` from `Data["data"]`. -/
def dataMapExtract (r : Response) : List (String × List (String × String)) :=
  match r.Data with
  | some (Json.obj tl) =>
    match jLookup tl "data" with
    | some (Json.obj mi) =>
      mi.map (fun kv =>
        (kv.1,
          match kv.2 with
          | Json.obj miva => miva.map (fun skv => (skv.1, goSprintfS skv.2))
          | _ => []))
    | _ => []
  | _ => []

/-- `DataMapValues`: fatal unless the response is FETCH_MULTI/DATA. -/
def DataMapValues (r : Response) :
    Option (List (String × List (String × String))) :=
  if r.Request.responseType ≠ RESPONSETYPE_FETCH_MULTI ∨
      r.Request.valType ≠ VALTYPE_DATA then none
  else some (dataMapExtract r)

/-- The bulk map built by `DataCountValues` (unparsable values become 0). -/
def dataCountExtract (r : Response) : List (String × List (String × Int)) :=
  match r.Data with
  | some (Json.obj tl) =>
    match jLookup tl "data" with
    | some (Json.obj mi) =>
      mi.map (fun kv =>
        (kv.1,
          match kv.2 with
          | Json.obj miva =>
            miva.map (fun skv =>
              (skv.1, match skv.2 with | Json.num n => n | _ => 0))
          | _ => []))
    | _ => []
  | _ => []

/-- `DataCountValues`: fatal unless the response is FETCH_MULTI/COUNT. -/
def DataCountValues (r : Response) :
    Option (List (String × List (String × Int))) :=
  if r.Request.responseType ≠ RESPONSETYPE_FETCH_MULTI ∨
      r.Request.valType ≠ VALTYPE_COUNT then none
  else some (dataCountExtract r)

/-- `CountValue`: fatal unless the value kind is COUNT (the response
shape is not checked by the code). -/
def CountValue (r : Response) : Option Int :=
  if r.Request.valType ≠ VALTYPE_COUNT then none
  else some r.IntValue

/-! ## `Execute` -/

/-- One attempt of the HTTP transport collaborator: a transport error,
or a response whose body either reads fully or fails mid-read. -/
inductive TransportR where
  | tErr
  | tOk (body : Except Unit String)

/-- The observable outcome of `Execute`: an abnormal termination
(`panic`), an explicit error return, or a decoded response. -/
inductive ExecR where
  | panicked
  | failed
  | done (r : Response)

/-- `Execute`: build the HTTP request (`newRequestOk` is whether
`http.NewRequest` succeeds), consult the transport once (`attempts 0`;
there is no retry), `panic(err)` on a transport error, surface a body
read error, and otherwise decode the body into a `Response`. -/
def Execute (r : Request) (newRequestOk : Bool) (attempts : Nat → TransportR)
    (decode : String → Except Unit (List (String × Json))) : ExecR :=
  if ¬newRequestOk then ExecR.failed
  else
    match attempts 0 with
    | TransportR.tErr => ExecR.panicked
    | TransportR.tOk (Except.error _) => ExecR.failed
    | TransportR.tOk (Except.ok bodyStr) =>
      match NewResponse r bodyStr (decode bodyStr) with
      | none => ExecR.panicked
      | some res => ExecR.done res

/-! ## Helper lemmas for the claims -/

theorem str_length_pos (s : String) (h : s ≠ "") : ¬(s.length < 1) := by
  cases s with
  | mk data =>
    cases data with
    | nil => exact absurd rfl h
    | cons c cs => simp [String.length]

/-- `parse` on a mutation response whose top level carries a `data`
object: the pipeline of observed count, count check and override. -/
theorem parse_mutation_eq (req : Request) (raw : String)
    (tl dm : List (String × Json))
    (hraw : raw ≠ "")
    (hrt : req.responseType = RESPONSETYPE_MUTATION)
    (hdata : jLookup tl "data" = some (Json.obj dm)) :
    parse req raw (Except.ok tl) =
      (match mutationOverride dm
          (mutationStage req.mutations (statusOK tl) (mutationObserved dm)) with
      | none => none
      | some s2 =>
        some { Request := req, RawBody := raw, Success := s2,
               Data := some (Json.obj tl),
               MutationCount := mutationObserved dm }) := by
  have hlen : ¬(raw.length < 1) := str_length_pos raw hraw
  simp only [parse, if_neg hlen, hdata, hrt, RESPONSETYPE_MUTATION,
    RESPONSETYPE_FETCH_SINGLE]
  simp

theorem setLogLevel_step_bounds (c : VeritasClient) (l : Int)
    (h1 : LOG_ERROR ≤ c.logLevel) (h2 : c.logLevel ≤ LOG_TRACE) :
    LOG_ERROR ≤ (SetLogLevel c l).2.logLevel ∧
      (SetLogLevel c l).2.logLevel ≤ LOG_TRACE := by
  simp only [LOG_ERROR, LOG_TRACE] at h1 h2
  simp only [SetLogLevel, LOG_ERROR, LOG_TRACE]
  split_ifs with h
  · exact ⟨h1, h2⟩
  · simp only
    omega

/-- A sequence of `SetLogLevel` calls applied in order. -/
def applyLogLevels (c : VeritasClient) (seq : List Int) : VeritasClient :=
  seq.foldl (fun st l => (SetLogLevel st l).2) c

theorem applyLogLevels_bounds (seq : List Int) :
    ∀ c : VeritasClient, LOG_ERROR ≤ c.logLevel → c.logLevel ≤ LOG_TRACE →
      LOG_ERROR ≤ (applyLogLevels c seq).logLevel ∧
        (applyLogLevels c seq).logLevel ≤ LOG_TRACE := by
  induction seq with
  | nil => intro c h1 h2; exact ⟨h1, h2⟩
  | cons l rest ih =>
    intro c h1 h2
    have hstep := setLogLevel_step_bounds c l h1 h2
    simpa [applyLogLevels, List.foldl_cons] using
      ih (SetLogLevel c l).2 hstep.1 hstep.2

theorem foldl_snd_count {α β : Type} (f : β → α → β) (l : List α) (b : β) (n : Int) :
    (l.foldl (fun acc x => (f acc.1 x, acc.2 + 1)) (b, n)).2 = n + l.length := by
  induction l generalizing b n with
  | nil => simp
  | cons x xs ih =>
    simp only [List.foldl_cons, List.length_cons]
    rw [ih]
    push_cast
    ring

/-! ## Fixtures for the witnesses and counterexamples -/

def reqSig1 : Request :=
  { client := NewClient 1 1 "test", endpoint := "asdf", method := "GET",
    body := "body-here", opts := newRequestOpts }

def reqSig2 : Request :=
  { reqSig1 with valType := 99, responseType := 42, mutations := 7 }

def reqMut3 : Request :=
  { client := NewClient 1 1 "t", endpoint := "data", method := "PUT",
    body := "payload", opts := newRequestOpts, valType := VALTYPE_DATA,
    responseType := RESPONSETYPE_MUTATION, mutations := 3 }

def tlMut2 : List (String × Json) :=
  [("status", Json.str "OK"), ("data", Json.obj [("mutations", Json.num 2)])]

def resMut2 : Response :=
  { Request := reqMut3, RawBody := "raw", Success := false,
    Data := some (Json.obj tlMut2), MutationCount := 2 }

def tlExecFalse : List (String × Json) :=
  [("status", Json.str "OK"),
   ("data", Json.obj [("mutations", Json.num 3), ("executed", Json.bool false)])]

def resExecFalse : Response :=
  { Request := reqMut3, RawBody := "raw", Success := false,
    Data := some (Json.obj tlExecFalse), MutationCount := 3 }

def resFixS : Response :=
  { Request := { client := NewClient 1 1 "t", opts := newRequestOpts,
                 valType := VALTYPE_DATA,
                 responseType := RESPONSETYPE_FETCH_SINGLE },
    StrValue := "v", IntValue := 5 }

def reqExec : Request :=
  { client := NewClient 7 8 "tok", endpoint := "data", method := "PUT",
    body := "x", opts := newRequestOpts, valType := VALTYPE_DATA,
    responseType := RESPONSETYPE_MUTATION, mutations := 1 }

/-! ## Claim C1 — the request signature -/

/-- C1: for every request, the signature equals the lowercase hex
SHA-512 of the concatenation — in this order — of the method, the
canonical path `/{version}/{endpoint}`, the secret token, the decimal
string of the body's byte length, and the lowercase hex SHA-1 of the
body; and it is a deterministic function of exactly those four inputs
(method, path, secret, body). -/
theorem signRequest_tagged_digest (r r2 : Request) :
    signRequest r =
      sha512Hex (utf8Bytes (r.method ++ getUrl r ++ r.client.secureToken ++
        toString (utf8Bytes r.body).length ++ sha1Hex (utf8Bytes r.body))) ∧
    (r.method = r2.method → getUrl r = getUrl r2 →
      r.client.secureToken = r2.client.secureToken → r.body = r2.body →
      signRequest r = signRequest r2) := by
  constructor
  · simp [signRequest, GoHash.writeStr, utf8Bytes_append, List.append_assoc]
  · intro h1 h2 h3 h4
    simp [signRequest, GoHash.writeStr, h1, h2, h3, h4]

/-- Witness for C1: the concrete request of the repository's golden
signature test, and a second request differing only in fields outside
(method, path, secret, body). -/
theorem signRequest_tagged_digest_witness :
    signRequest reqSig1 =
      sha512Hex (utf8Bytes (reqSig1.method ++ getUrl reqSig1 ++
        reqSig1.client.secureToken ++
        toString (utf8Bytes reqSig1.body).length ++
        sha1Hex (utf8Bytes reqSig1.body))) ∧
    signRequest reqSig1 = signRequest reqSig2 :=
  ⟨(signRequest_tagged_digest reqSig1 reqSig2).1,
   (signRequest_tagged_digest reqSig1 reqSig2).2 rfl rfl rfl rfl⟩

/-! ## Claim C2 — mutation count sentinel and downgrade (corrected) -/

/-- C2 counterexample: a mutation response whose body has `status: OK`
but no `data` member at all.  The claim (sentinel −1 whenever
`data.mutations` is absent, downgrade on mismatch) demands
`MutationCount = −1` and `Success = false`; the code skips the whole
mutation branch, leaving `MutationCount = 0` and `Success = true`. -/
theorem mutation_sentinel_cex :
    (parse reqMut3 "raw" (Except.ok [("status", Json.str "OK")])).map
        Response.Success = some true ∧
    (parse reqMut3 "raw" (Except.ok [("status", Json.str "OK")])).map
        Response.MutationCount = some 0 ∧
    reqMut3.responseType = RESPONSETYPE_MUTATION ∧
    reqMut3.mutations = 3 :=
  ⟨rfl, rfl, rfl, rfl⟩

/-- C2 (amended): for every mutation response whose top level carries a
(non-null) `data` object, the `MutationCount` of the decoded response is
read from `data.mutations` with the −1 sentinel for an absent or
non-numeric field; the count check downgrades a provisional success to
failure whenever the observed count differs from the expected one; and
the decoded success is the acknowledged/executed override applied to the
count check's result.  (When `data` is absent or null the mutation
branch is skipped entirely — see the counterexample.) -/
theorem mutation_count_check (req : Request) (raw : String)
    (tl dm : List (String × Json)) (res : Response)
    (hraw : raw ≠ "")
    (hrt : req.responseType = RESPONSETYPE_MUTATION)
    (hdata : jLookup tl "data" = some (Json.obj dm))
    (hres : parse req raw (Except.ok tl) = some res) :
    res.MutationCount = mutationObserved dm ∧
    mutationOverride dm
      (mutationStage req.mutations (statusOK tl) (mutationObserved dm)) =
      some res.Success ∧
    (∀ expected obs : Int, obs ≠ expected → mutationStage expected true obs = false) := by
  rw [parse_mutation_eq req raw tl dm hraw hrt hdata] at hres
  rcases hov : mutationOverride dm
      (mutationStage req.mutations (statusOK tl) (mutationObserved dm)) with _ | s2
  · rw [hov] at hres
    exact absurd hres (by simp)
  · rw [hov] at hres
    simp only [Option.some.injEq] at hres
    subst hres
    refine ⟨rfl, rfl, ?_⟩
    intro expected obs hne
    simp [mutationStage, hne]

/-- Witness for C2 (amended): the spec's own mutation-count scenario — a
bulk put expecting 3 mutations answered with `status: OK,
data.mutations: 2` decodes with `Success = false`. -/
theorem mutation_count_check_witness :
    resMut2.MutationCount = mutationObserved [("mutations", Json.num 2)] ∧
    mutationOverride [("mutations", Json.num 2)]
      (mutationStage reqMut3.mutations (statusOK tlMut2)
        (mutationObserved [("mutations", Json.num 2)])) = some resMut2.Success ∧
    resMut2.Success = false :=
  have h := mutation_count_check reqMut3 "raw" tlMut2
    [("mutations", Json.num 2)] resMut2 (by decide) rfl rfl rfl
  ⟨h.1, h.2.1, rfl⟩

/-! ## Claim C3 — acknowledged/executed override -/

/-- C3: for every mutation response with a `data` object in which
`acknowledged` (or, failing that, `executed`) is present as a boolean,
the decoded success equals that boolean — regardless of the `status`
field and of whether the observed mutation count matches the expected
one (the override runs after the count check and takes final
precedence). -/
theorem ack_exec_override (req : Request) (raw : String)
    (tl dm : List (String × Json)) (res : Response) (b : Bool)
    (hraw : raw ≠ "")
    (hrt : req.responseType = RESPONSETYPE_MUTATION)
    (hdata : jLookup tl "data" = some (Json.obj dm))
    (hov : presentField dm "acknowledged" = some (Json.bool b) ∨
      (presentField dm "acknowledged" = none ∧
        presentField dm "executed" = some (Json.bool b)))
    (hres : parse req raw (Except.ok tl) = some res) :
    res.Success = b := by
  rw [parse_mutation_eq req raw tl dm hraw hrt hdata] at hres
  rcases hov with h | ⟨h1, h2⟩
  · simp only [mutationOverride, h] at hres
    simp only [Option.some.injEq] at hres
    subst hres
    rfl
  · simp only [mutationOverride, h1, h2] at hres
    simp only [Option.some.injEq] at hres
    subst hres
    rfl

/-- Witness for C3: the spec's acknowledgement-override scenario —
`status: OK`, matching mutation count, `data.executed: false` decodes
with `Success = false`. -/
theorem ack_exec_override_witness :
    parse reqMut3 "raw" (Except.ok tlExecFalse) = some resExecFalse ∧
    resExecFalse.Success = false ∧
    statusOK tlExecFalse = true ∧
    mutationObserved [("mutations", Json.num 3), ("executed", Json.bool false)] =
      reqMut3.mutations :=
  have h := ack_exec_override reqMut3 "raw" tlExecFalse
    [("mutations", Json.num 3), ("executed", Json.bool false)]
    resExecFalse false (by decide) rfl rfl (Or.inr ⟨rfl, rfl⟩) rfl
  ⟨rfl, h, rfl, rfl⟩

/-! ## Claim C4 — typed accessor guards -/

/-- C4: each typed accessor is fatal exactly when the stored
response-shape / value-kind does not match what that accessor is for
(`DataValue`: FETCH_SINGLE + DATA; `CountValue`: value kind COUNT;
`DataMapValues`: FETCH_MULTI + DATA; `DataCountValues`: FETCH_MULTI +
COUNT), and on a match returns the stored value without failure. -/
theorem typed_accessors_guard (r : Response) :
    (DataValue r = none ↔
      ¬(r.Request.responseType = RESPONSETYPE_FETCH_SINGLE ∧
        r.Request.valType = VALTYPE_DATA)) ∧
    (r.Request.responseType = RESPONSETYPE_FETCH_SINGLE ∧
        r.Request.valType = VALTYPE_DATA →
      DataValue r = some r.StrValue) ∧
    (CountValue r = none ↔ ¬(r.Request.valType = VALTYPE_COUNT)) ∧
    (r.Request.valType = VALTYPE_COUNT → CountValue r = some r.IntValue) ∧
    (DataMapValues r = none ↔
      ¬(r.Request.responseType = RESPONSETYPE_FETCH_MULTI ∧
        r.Request.valType = VALTYPE_DATA)) ∧
    (r.Request.responseType = RESPONSETYPE_FETCH_MULTI ∧
        r.Request.valType = VALTYPE_DATA →
      DataMapValues r = some (dataMapExtract r)) ∧
    (DataCountValues r = none ↔
      ¬(r.Request.responseType = RESPONSETYPE_FETCH_MULTI ∧
        r.Request.valType = VALTYPE_COUNT)) ∧
    (r.Request.responseType = RESPONSETYPE_FETCH_MULTI ∧
        r.Request.valType = VALTYPE_COUNT →
      DataCountValues r = some (dataCountExtract r)) := by
  unfold DataValue CountValue DataMapValues DataCountValues
  refine ⟨?_, ?_, ?_, ?_, ?_, ?_, ?_, ?_⟩ <;>
    (split_ifs with h <;> simp_all <;> tauto)

/-- Witness for C4 at a concrete FETCH_SINGLE/DATA response: `DataValue`
succeeds with the stored string, `CountValue` and the bulk getters are
fatal. -/
theorem typed_accessors_guard_witness :
    DataValue resFixS = some "v" ∧
    CountValue resFixS = none ∧
    DataMapValues resFixS = none ∧
    DataCountValues resFixS = none :=
  have h := typed_accessors_guard resFixS
  ⟨h.2.1 ⟨rfl, rfl⟩,
   h.2.2.1.mpr (by decide),
   h.2.2.2.2.1.mpr (by decide),
   h.2.2.2.2.2.2.1.mpr (by decide)⟩

/-! ## Claim C5 — transport failure handling (corrected) -/

/-- C5 counterexample: on a transport failure `Execute` reaches
`panic(err)` — the abnormal-termination outcome — rather than returning
an explicit error value. -/
theorem execute_transport_panic_cex :
    Execute reqExec true (fun _ => TransportR.tErr)
      (fun _ => Except.error ()) = ExecR.panicked ∧
    ExecR.panicked ≠ ExecR.failed :=
  ⟨rfl, fun h => ExecR.noConfusion h⟩

/-- C5 (amended): `Execute` consults the transport exactly once (its
outcome depends only on the first attempt — nothing is retried);
a request-construction failure or a body-read failure returns an
explicit error value; a transport failure panics (terminates
abnormally); on a readable body the decoded `Response` is returned in
full (or the decoder's own type-assertion panic propagates). -/
theorem execute_outcomes (r : Request) (a a2 : Nat → TransportR)
    (d : String → Except Unit (List (String × Json)))
    (body : String) (res : Response) :
    Execute r false a d = ExecR.failed ∧
    (a 0 = TransportR.tErr → Execute r true a d = ExecR.panicked) ∧
    (a 0 = TransportR.tOk (Except.error ()) → Execute r true a d = ExecR.failed) ∧
    (a 0 = TransportR.tOk (Except.ok body) →
      NewResponse r body (d body) = some res →
      Execute r true a d = ExecR.done res) ∧
    (a 0 = TransportR.tOk (Except.ok body) →
      NewResponse r body (d body) = none →
      Execute r true a d = ExecR.panicked) ∧
    (a 0 = a2 0 → Execute r true a d = Execute r true a2 d) := by
  refine ⟨rfl, ?_, ?_, ?_, ?_, ?_⟩
  · intro h
    simp [Execute, h]
  · intro h
    simp [Execute, h]
  · intro h hres
    simp [Execute, h, hres]
  · intro h hres
    simp [Execute, h, hres]
  · intro h
    simp [Execute, h]

/-- Witness for C5 (amended) at concrete inputs: a failed body read
returns the error outcome, and the no-retry conjunct applied to two
transports agreeing on the first attempt. -/
theorem execute_outcomes_witness :
    Execute reqExec true (fun _ => TransportR.tOk (Except.error ()))
      (fun _ => Except.error ()) = ExecR.failed ∧
    Execute reqExec true (fun _ => TransportR.tErr) (fun _ => Except.error ()) =
      Execute reqExec true
        (fun n => if n = 0 then TransportR.tErr else TransportR.tOk (Except.ok "x"))
        (fun _ => Except.error ()) :=
  ⟨(execute_outcomes reqExec (fun _ => TransportR.tOk (Except.error ()))
      (fun _ => TransportR.tOk (Except.error ()))
      (fun _ => Except.error ()) "" { Request := reqExec }).2.2.1 rfl,
   (execute_outcomes reqExec (fun _ => TransportR.tErr)
      (fun n => if n = 0 then TransportR.tErr else TransportR.tOk (Except.ok "x"))
      (fun _ => Except.error ()) "" { Request := reqExec }).2.2.2.2.2 rfl⟩

/-! ## Claim C6 — URI encoding preserves `,` and `:` -/

/-- C6: `encodeUri` maps each input byte independently: `,` and `:`
stay literal while every other byte is standard query-escaped
(alphanumerics and `-_.~` as themselves, space as `+`, the rest —
including `/` — as uppercase `%XX`); equivalently it is query-escaping
followed by replacing every `%2C` with `,` and every `%3A` with `:`. -/
theorem encodeUri_comma_colon (s : String) :
    encodeUri s = encodeUriSpec s ∧
    encodeUri s = String.mk (replaceAllChars ['%', '3', 'A'] [':']
      (replaceAllChars ['%', '2', 'C'] [','] (queryEscape (utf8Bytes s)))) :=
  ⟨encodeUri_chars s, rfl⟩

/-- Concrete check of the C6 scenario: `,` and `:` stay unescaped while
space and `/` are escaped. -/
theorem encodeUri_example : encodeUri "a,b:c/d e" = "a,b:c%2Fd+e" := by decide

/-! ## Claim C7 — expected mutation count = distinct top-level keys -/

/-- C7: each bulk mutation builder carries, as the request's expected
mutation count, the number of distinct top-level keys of its key map
(one counted iteration per key), not the number of subkey entries. -/
theorem bulk_mutations_distinct_keys (v : VeritasClient) (table : String)
    (km1 : List (String × List (String × String)))
    (km2 : List (String × List String))
    (km3 : List (String × List (String × Int)))
    (km4 : List (String × List String))
    (m1 : RequestPayload (PayloadObjectsKeyValues String) → String)
    (m2 : RequestPayload PayloadObjectsKeys → String)
    (m3 : RequestPayload (PayloadObjectsKeyValues Int) → String)
    (m4 : RequestPayload PayloadObjectsKeys → String)
    (h1 : (km1.map Prod.fst).Nodup) (h2 : (km2.map Prod.fst).Nodup)
    (h3 : (km3.map Prod.fst).Nodup) (h4 : (km4.map Prod.fst).Nodup) :
    (PutMulti v table km1 m1).mutations = ((km1.map Prod.fst).toFinset.card : Int) ∧
    (DeleteMulti v table km2 m2).mutations = ((km2.map Prod.fst).toFinset.card : Int) ∧
    (PutMultiCount v table km3 m3).mutations = ((km3.map Prod.fst).toFinset.card : Int) ∧
    (DeleteMultiCount v table km4 m4).mutations = ((km4.map Prod.fst).toFinset.card : Int) := by
  have c1 : (km1.map Prod.fst).toFinset.card = km1.length := by
    rw [List.toFinset_card_of_nodup h1, List.length_map]
  have c2 : (km2.map Prod.fst).toFinset.card = km2.length := by
    rw [List.toFinset_card_of_nodup h2, List.length_map]
  have c3 : (km3.map Prod.fst).toFinset.card = km3.length := by
    rw [List.toFinset_card_of_nodup h3, List.length_map]
  have c4 : (km4.map Prod.fst).toFinset.card = km4.length := by
    rw [List.toFinset_card_of_nodup h4, List.length_map]
  refine ⟨?_, ?_, ?_, ?_⟩
  · rw [c1]
    simpa using foldl_snd_count
      (fun (b : RequestPayload (PayloadObjectsKeyValues String)) kv =>
        { b with Objects := b.Objects ++ [{ Key := kv.1, Values := kv.2 }] })
      km1 { DefaultDb := v.database, DefaultTable := table } 0
  · rw [c2]
    simpa using foldl_snd_count
      (fun (b : RequestPayload PayloadObjectsKeys) kv =>
        { b with Objects := b.Objects ++ [{ Key := kv.1, Values := kv.2 }] })
      km2 { DefaultDb := v.database, DefaultTable := table } 0
  · rw [c3]
    simpa using foldl_snd_count
      (fun (b : RequestPayload (PayloadObjectsKeyValues Int)) kv =>
        { b with Objects := b.Objects ++ [{ Key := kv.1, Values := kv.2 }] })
      km3 { DefaultDb := v.database, DefaultTable := table } 0
  · rw [c4]
    simpa using foldl_snd_count
      (fun (b : RequestPayload PayloadObjectsKeys) kv =>
        { b with Objects := b.Objects ++ [{ Key := kv.1, Values := kv.2 }] })
      km4 { DefaultDb := v.database, DefaultTable := table } 0

/-- Witness for C7: two distinct keys with three subkey entries in
total give an expected count of 2 for every builder. -/
theorem bulk_mutations_distinct_keys_witness :
    (PutMulti (NewClient 1 1 "t") "tbl"
      [("k1", [("a", "1"), ("b", "2")]), ("k2", [("c", "3")])]
      (fun _ => "")).mutations = 2 ∧
    (DeleteMulti (NewClient 1 1 "t") "tbl" [("k1", ["a", "b"]), ("k2", ["c"])]
      (fun _ => "")).mutations = 2 ∧
    (PutMultiCount (NewClient 1 1 "t") "tbl"
      [("k1", [("a", (1 : Int)), ("b", 2)]), ("k2", [("c", 3)])]
      (fun _ => "")).mutations = 2 ∧
    (DeleteMultiCount (NewClient 1 1 "t") "tbl" [("k1", ["a", "b"]), ("k2", ["c"])]
      (fun _ => "")).mutations = 2 :=
  have h := bulk_mutations_distinct_keys (NewClient 1 1 "t") "tbl"
    [("k1", [("a", "1"), ("b", "2")]), ("k2", [("c", "3")])]
    [("k1", ["a", "b"]), ("k2", ["c"])]
    [("k1", [("a", (1 : Int)), ("b", 2)]), ("k2", [("c", 3)])]
    [("k1", ["a", "b"]), ("k2", ["c"])]
    (fun _ => "") (fun _ => "") (fun _ => "") (fun _ => "")
    (by decide) (by decide) (by decide) (by decide)
  ⟨h.1.trans (by decide), h.2.1.trans (by decide),
   h.2.2.1.trans (by decide), h.2.2.2.trans (by decide)⟩

/-! ## Claim C8 — empty response body -/

/-- C8: decoding an empty body yields `Success = false` with every
other field at its zero value, for any request and regardless of the
JSON decoder (which is never consulted). -/
theorem parse_empty_body (req : Request)
    (decoded : Except Unit (List (String × Json))) :
    parse req "" decoded =
      some { Success := false, ResponseType := 0, RawBody := "",
             Request := req, Error := false, StrValue := "", IntValue := 0,
             MutationCount := 0, Data := none } := rfl

/-! ## Claim C9 — log level validation and invariant -/

/-- C9: `SetLogLevel` reports success exactly for levels 0..3
(`LOG_ERROR`..`LOG_TRACE`), in which case it sets the level, and
otherwise leaves the client unchanged; consequently, starting from
`NewClient`'s `LOG_WARN = 1`, the level stays within [0, 3] under any
sequence of `SetLogLevel` calls. -/
theorem setLogLevel_spec (c : VeritasClient) (l cid aid : Int)
    (tok : String) (seq : List Int) :
    ((SetLogLevel c l).1 = true ↔ LOG_ERROR ≤ l ∧ l ≤ LOG_TRACE) ∧
    (LOG_ERROR ≤ l ∧ l ≤ LOG_TRACE →
      SetLogLevel c l = (true, { c with logLevel := l })) ∧
    (¬(LOG_ERROR ≤ l ∧ l ≤ LOG_TRACE) → SetLogLevel c l = (false, c)) ∧
    (NewClient cid aid tok).logLevel = LOG_WARN ∧
    (LOG_ERROR ≤ (applyLogLevels (NewClient cid aid tok) seq).logLevel ∧
      (applyLogLevels (NewClient cid aid tok) seq).logLevel ≤ LOG_TRACE) := by
  have hinit : (NewClient cid aid tok).logLevel = 1 := rfl
  refine ⟨?_, ?_, ?_, rfl, ?_⟩
  · constructor
    · intro ht
      by_contra hc
      have hout : l < LOG_ERROR ∨ l > LOG_TRACE := by
        simp only [LOG_ERROR, LOG_TRACE] at hc ⊢
        omega
      simp [SetLogLevel, hout] at ht
    · intro hb
      have hin : ¬(l < LOG_ERROR ∨ l > LOG_TRACE) := by
        simp only [LOG_ERROR, LOG_TRACE] at hb ⊢
        omega
      simp [SetLogLevel, hin]
  · intro hb
    simp only [LOG_ERROR, LOG_TRACE] at hb
    simp only [SetLogLevel, LOG_ERROR, LOG_TRACE]
    rw [if_neg (by omega)]
  · intro hb
    simp only [LOG_ERROR, LOG_TRACE] at hb
    simp only [SetLogLevel, LOG_ERROR, LOG_TRACE]
    rw [if_pos (by omega)]
  · exact applyLogLevels_bounds seq (NewClient cid aid tok)
      (by rw [hinit]; decide) (by rw [hinit]; decide)

/-- Witness for C9: rejecting 5 leaves the level at 1; the sequence
[3, 9, −2] ends at level 3, inside the bounds. -/
theorem setLogLevel_spec_witness :
    SetLogLevel (NewClient 1 1 "t") 5 = (false, NewClient 1 1 "t") ∧
    (NewClient 1 1 "t").logLevel = LOG_WARN ∧
    (LOG_ERROR ≤ (applyLogLevels (NewClient 1 1 "t") [3, 9, -2]).logLevel ∧
      (applyLogLevels (NewClient 1 1 "t") [3, 9, -2]).logLevel ≤ LOG_TRACE) :=
  have h := setLogLevel_spec (NewClient 1 1 "t") 5 1 1 "t" [3, 9, -2]
  ⟨h.2.2.1 (by decide), h.2.2.2.1, h.2.2.2.2⟩

/-! ## Claim C10 — NewClient defaults -/

/-- C10: `NewClient` stores the three identifiers unchanged and defaults
to version `v1`, endpoint `http://api.flxveritas.com`, region `any`,
log level `LOG_WARN = 1`, and an empty database selection. -/
theorem newClient_defaults (cid aid : Int) (tok : String) :
    NewClient cid aid tok =
      { customerId := cid, applicationId := aid, secureToken := tok,
        version := "v1", database := "",
        endpoint := "http://api.flxveritas.com", region := "any",
        logLevel := 1 } := rfl

end Veritas
